import Mathlib

/-!
Verification development for the PyNFe XML serialization engine
(src/pynfe/processamento/serializacao.py).

The Python code is shallowly embedded: lxml element trees become the
inductive type XmlTree, Python Decimal values become integers counted in
hundredths (two implied decimal places), optional / nullable attributes
become Option, and code paths that can raise a Python exception return
Except PyErr.  Each embedded definition names the source function and the
line range it was translated from.
-/

/-- Python exceptions that the embedded code paths can raise. -/
inductive PyErr where
  | attributeError
  | keyError
  | indexError
  | typeError
  | valueError
deriving DecidableEq, Repr

/-- An lxml.etree element: tag, attributes, optional text, ordered children.
`etree.SubElement(parent, t)` appends a child with tag `t`; assigning
`.text` sets the text field. -/
inductive XmlTree where
  | el (tag : String) (attrs : List (String × String)) (text : Option String)
      (children : List XmlTree)

def XmlTree.tag : XmlTree → String
  | .el t _ _ _ => t

def XmlTree.attrs : XmlTree → List (String × String)
  | .el _ a _ _ => a

def XmlTree.text : XmlTree → Option String
  | .el _ _ tx _ => tx

def XmlTree.children : XmlTree → List XmlTree
  | .el _ _ _ cs => cs

/-- A childless element with text, as built by
`etree.SubElement(parent, tag).text = s`. -/
def leaf (tag : String) (s : String) : XmlTree := .el tag [] (some s) []

/-- A childless element whose text may be absent (assigning `None` to
`.text` leaves the element textless). -/
def leafO (tag : String) (s : Option String) : XmlTree := .el tag [] s []

/-- Number of direct children carrying the given tag. -/
def countTag (t : String) (cs : List XmlTree) : Nat :=
  (cs.filter (fun c => c.tag == t)).length

/-- First direct child carrying the given tag, mirroring `find`/`findall`
head access on lxml elements. -/
def firstTag (t : String) (cs : List XmlTree) : Option XmlTree :=
  match cs.filter (fun c => c.tag == t) with
  | [] => none
  | c :: _ => some c

/-- Text of the first direct child with the given tag. -/
def getText (t : String) (x : XmlTree) : Option String :=
  match firstTag t x.children with
  | none => none
  | some c => c.text

/-- `element.findall(t)` removal: drop every direct child with tag `t`
(`for child in icms_item.findall("modBC"): icms_item.remove(child)`). -/
def removeTag (t : String) (cs : List XmlTree) : List XmlTree :=
  cs.filter (fun c => c.tag != t)

/-- Decidable equality for Except values, used to evaluate the embedded
computations at concrete inputs. -/
instance [DecidableEq e] [DecidableEq a] : DecidableEq (Except e a)
  | .ok x, .ok y =>
    if h : x = y then .isTrue (by rw [h])
    else .isFalse (fun hx => h (Except.ok.inj hx))
  | .error x, .error y =>
    if h : x = y then .isTrue (by rw [h])
    else .isFalse (fun hx => h (Except.error.inj hx))
  | .ok _, .error _ => .isFalse (fun hx => Except.noConfusion hx)
  | .error _, .ok _ => .isFalse (fun hx => Except.noConfusion hx)

/-- Children of an Except-valued element, empty on error. -/
def childrenOf (r : Except PyErr XmlTree) : List XmlTree :=
  match r with
  | .ok x => x.children
  | .error _ => []

/-- Whether an Except computation succeeded. -/
def okB (r : Except PyErr XmlTree) : Bool :=
  match r with
  | .ok _ => true
  | .error _ => false

/-!  Decimal modelling.  Python `Decimal` monetary and rate values are
modelled as integers counted in hundredths; `None` becomes `none`.
Python truthiness on such a field (`if x:`) is false exactly for `None`
and zero. -/

def orZero (o : Option Int) : Int := o.getD 0

/-- Python truthiness of an optional Decimal field. -/
def truthyD (o : Option Int) : Bool :=
  match o with
  | none => false
  | some v => v != 0

/-- Python truthiness of an optional string field (`None` and `''` are
falsy). -/
def truthyS (o : Option String) : Bool :=
  match o with
  | none => false
  | some s => !s.isEmpty

def pad2 (n : Nat) : String :=
  if n < 10 then "0" ++ toString n else toString n

/-- `'{:.2f}'.format(v)` on a value held in hundredths. -/
def fmt2 (v : Int) : String :=
  (if v < 0 then "-" else "") ++ toString (v.natAbs / 100) ++ "." ++ pad2 (v.natAbs % 100)

/-- `'{:.4f}'.format(v)` on a value held in hundredths: the last two of
the four decimal places are always zero in this representation. -/
def fmt4 (v : Int) : String :=
  (if v < 0 then "-" else "") ++ toString (v.natAbs / 100) ++ "." ++ pad2 (v.natAbs % 100) ++ "00"

def fmt2o (o : Option Int) : String := fmt2 (orZero o)

def fmt4o (o : Option Int) : String := fmt4 (orZero o)

/-- `'{:.2f}'.format(x)` with no `or 0` guard: formatting `None` raises
TypeError. -/
def fmt2E (o : Option Int) : Except PyErr String :=
  match o with
  | none => .error .typeError
  | some v => .ok (fmt2 v)

/-- `'{:.4f}'.format(x)` with no `or 0` guard. -/
def fmt4E (o : Option Int) : Except PyErr String :=
  match o with
  | none => .error .typeError
  | some v => .ok (fmt4 v)

/-- `str(x)` on an optional Decimal field (canonical two-place print;
Python's str-of-Decimal keeps the value's own scale, which no claim
depends on). -/
def strD (o : Option Int) : String :=
  match o with
  | none => "None"
  | some v => fmt2 v

/-- `str(x or 0)` on an optional Decimal field. -/
def strD0 (o : Option Int) : String :=
  match o with
  | none => "0"
  | some v => fmt2 v

/-- `str(x)` on an optional int-coded field (BC-determination codes). -/
def strI (o : Option Int) : String :=
  match o with
  | none => "None"
  | some v => toString v

/-- `str(x or 0)` on an optional int-coded field. -/
def strI0 (o : Option Int) : String := toString (orZero o)

/-- `s.zfill(2)`. -/
def zfill2 (s : String) : String :=
  if s.length ≥ 2 then s else String.mk (List.replicate (2 - s.length) '0') ++ s

/-- `re.sub('[^0-9]', '', s)`. -/
def digitsOnly (s : String) : String := String.mk (s.data.filter Char.isDigit)

/-- `s.upper()` on ASCII strings, written over the character list so that
it evaluates inside the kernel. -/
def pyUpper (s : String) : String := String.mk (s.data.map Char.toUpper)

/-- `s.replace('NFe', '')` (serializacao.py:1032): remove every
(non-overlapping, leftmost-first) occurrence of the literal `NFe`. -/
def removeNFe : List Char → List Char
  | 'N' :: 'F' :: 'e' :: rest => removeNFe rest
  | c :: rest => c :: removeNFe rest
  | [] => []
termination_by l => l.length
decreasing_by all_goals (simp; try omega)

/-- `removeNFe` on strings. -/
def removeNFeS (s : String) : String := String.mk (removeNFe s.data)

/-!  SHA-1 (`hashlib.sha1`), implemented over byte lists with arithmetic
modulo 2^32. -/

def rotl32 (n x : Nat) : Nat :=
  ((x <<< n) ||| (x >>> (32 - n))) % 4294967296

/-- UTF-8 bytes of an ASCII string (`s.encode()`); the strings hashed
here are ASCII. -/
def bytesOfAscii (s : String) : List Nat := s.data.map Char.toNat

/-- `bytes.lower()`: lowercase the ASCII uppercase letters. -/
def lowerByte (n : Nat) : Nat :=
  if 65 ≤ n ∧ n ≤ 90 then n + 32 else n

def hexDigitLower (n : Nat) : Char :=
  (("0123456789abcdef").data.getD n '0')

def hexDigitUpper (n : Nat) : Char :=
  (("0123456789ABCDEF").data.getD n '0')

/-- `bytes.hex()`: lowercase hex encoding of a byte list. -/
def hexLower (bs : List Nat) : String :=
  String.mk (bs.flatMap (fun b => [hexDigitLower ((b / 16) % 16), hexDigitLower (b % 16)]))

/-- `base64.b16encode(..).decode()`: uppercase hex encoding. -/
def b16encode (bs : List Nat) : String :=
  String.mk (bs.flatMap (fun b => [hexDigitUpper ((b / 16) % 16), hexDigitUpper (b % 16)]))

/-- Big-endian 8-byte encoding of a bit length. -/
def be64 (n : Nat) : List Nat :=
  [ (n >>> 56) % 256, (n >>> 48) % 256, (n >>> 40) % 256, (n >>> 32) % 256,
    (n >>> 24) % 256, (n >>> 16) % 256, (n >>> 8) % 256, n % 256 ]

/-- Big-endian 4-byte encoding of a 32-bit word. -/
def be32 (n : Nat) : List Nat :=
  [ (n >>> 24) % 256, (n >>> 16) % 256, (n >>> 8) % 256, n % 256 ]

/-- Group a byte list into big-endian 32-bit words. -/
def be32words : List Nat → List Nat
  | b1 :: b2 :: b3 :: b4 :: rest =>
      (((b1 * 256 + b2) * 256 + b3) * 256 + b4) :: be32words rest
  | _ => []

/-- Split a padded message into 64-byte blocks. -/
def chunk64 : List Nat → List (List Nat)
  | [] => []
  | b :: bs => ((b :: bs).take 64) :: chunk64 ((b :: bs).drop 64)
termination_by l => l.length
decreasing_by simp [List.length_drop]; omega

structure Sha1State where
  h0 : Nat
  h1 : Nat
  h2 : Nat
  h3 : Nat
  h4 : Nat
deriving Repr

def sha1Init : Sha1State :=
  ⟨0x67452301, 0xEFCDAB89, 0x98BADCFE, 0x10325476, 0xC3D2E1F0⟩

def sha1F (t b c d : Nat) : Nat :=
  if t < 20 then (b &&& c) ||| ((b ^^^ 4294967295) &&& d)
  else if t < 40 then b ^^^ c ^^^ d
  else if t < 60 then (b &&& c) ||| (b &&& d) ||| (c &&& d)
  else b ^^^ c ^^^ d

def sha1K (t : Nat) : Nat :=
  if t < 20 then 0x5A827999
  else if t < 40 then 0x6ED9EBA1
  else if t < 60 then 0x8F1BBCDC
  else 0xCA62C1D6

/-- Extend 16 message words to the 80-word schedule. -/
def sha1Extend (w : Array Nat) : Array Nat :=
  (List.range 64).foldl
    (fun w j =>
      let i := j + 16
      w.push (rotl32 1 ((w.getD (i - 3) 0) ^^^ (w.getD (i - 8) 0) ^^^
                        (w.getD (i - 14) 0) ^^^ (w.getD (i - 16) 0))))
    w

def sha1Compress (st : Sha1State) (block : List Nat) : Sha1State :=
  let w := sha1Extend (be32words block).toArray
  let f := fun (s : Nat × Nat × Nat × Nat × Nat) (t : Nat) =>
    let (a, b, c, d, e) := s
    let temp := (rotl32 5 a + sha1F t b c d + e + sha1K t + w.getD t 0) % 4294967296
    (temp, a, rotl32 30 b, c, d)
  let (a, b, c, d, e) := (List.range 80).foldl f (st.h0, st.h1, st.h2, st.h3, st.h4)
  ⟨(st.h0 + a) % 4294967296, (st.h1 + b) % 4294967296, (st.h2 + c) % 4294967296,
   (st.h3 + d) % 4294967296, (st.h4 + e) % 4294967296⟩

/-- SHA-1 padding: append 0x80, zero bytes to 56 mod 64, then the 64-bit
big-endian bit length. -/
def sha1Pad (msg : List Nat) : List Nat :=
  msg ++ [128] ++ List.replicate ((119 - msg.length % 64) % 64) 0 ++ be64 (8 * msg.length)

/-- `hashlib.sha1(msg).digest()`: the 20-byte SHA-1 digest. -/
def sha1 (msg : List Nat) : List Nat :=
  let st := (chunk64 (sha1Pad msg)).foldl sha1Compress sha1Init
  be32 st.h0 ++ be32 st.h1 ++ be32 st.h2 ++ be32 st.h3 ++ be32 st.h4

/-!  Entity records.  The entity classes (pynfe.entidades) are not under
src/; the records below list exactly the attributes the serializer reads,
with types reflecting §3 of the specification and the way
serializacao.py consumes each attribute. -/

/-- Emitter attributes read by the line-item tax engine
(`nota_fiscal.emitente.codigo_de_regime_tributario`, line 319). -/
structure Emitente where
  codigo_de_regime_tributario : Int

/-- Modelled from the spec: the FiscalDocument record of §3 (entity class
`NotaFiscal`, not under src/).  Fields are the attributes
`_serializar_nota_fiscal` and `_serializar_produto_servico` read.  Per
§3 the record has no field named `self`; the attribute access
`nota_fiscal.self._contingencia` at serializacao.py:726 therefore raises
AttributeError.  `datetime` fields are carried as their
`strftime('%Y-%m-%dT%H:%M:%S')` rendering. -/
structure NotaFiscal where
  identificador_unico : String
  uf : String
  codigo_numerico_aleatorio : String
  natureza_operacao : String
  modelo : Int
  serie : String
  numero_nf : Int
  data_emissao : String
  data_saida_entrada : Option String
  tipo_documento : Int
  indicador_destino : Int
  municipio : String
  tipo_impressao_danfe : Int
  forma_emissao : String
  dv_codigo_numerico_aleatorio : String
  finalidade_emissao : String
  cliente_final : Int
  indicador_presencial : Int
  processo_emissao : Int
  versao_processo_emissao : String
  notas_fiscais_referenciadas : List String
  emitente : Emitente
  indicacao_pagamento : Option Int
  tipo_pagamento : String
  descricao_pagamento : Option String
  totais_icms_total_nota : Int
  cartao_tipo_integracao : Option Int
  cartao_cnpj : Option String
  cartao_tipo_bandeira : Option String
  cartao_numero_autorizacao : Option String
  cartao_cnpj_receb : Option String
  cartao_terminal_pgto : Option String
  cartao_valor_troco : Option Int

/-- The `icms_ufdest` dict of a line item (serializacao.py:602-615).
Keys `bc_uf_dest`, `fcp_percentual_uf_dest`, `icms_percentual_uf_dest`,
`icms_inter`, `icms_inter_part`, `icms_uf_dest`, `icms_uf_remet` are
accessed unconditionally; `bc_fcp_uf_dest` and `fcp_uf_dest` only after
an `in` test, modelled by the two presence flags. -/
structure UFDest where
  bc_uf_dest : Option Int
  bc_fcp_present : Bool
  bc_fcp_uf_dest : Option Int
  fcp_percentual_uf_dest : Option Int
  icms_percentual_uf_dest : Option Int
  icms_inter : Option Int
  icms_inter_part : Option Int
  fcp_present : Bool
  fcp_uf_dest : Option Int
  icms_uf_dest : Option Int
  icms_uf_remet : Option Int

/-- Line-item attributes read by the tax portion of
`_serializar_produto_servico` (serializacao.py:293-615). -/
structure ProdutoServico where
  icms_modalidade : String
  icms_origem : Int
  icms_csosn : String
  icms_aliquota : Option Int
  icms_credito : Option Int
  icms_modalidade_determinacao_bc : Option Int
  icms_valor_base_calculo : Option Int
  icms_percentual_reducao_bc : Option Int
  icms_valor : Option Int
  icms_st_modalidade_determinacao_bc : Option Int
  icms_st_percentual_adicional : Option Int
  icms_st_percentual_reducao_bc : Option Int
  icms_st_valor_base_calculo : Option Int
  icms_st_aliquota : Option Int
  icms_st_valor : Option Int
  icms_st_retido : Bool
  icms_st_substituto : Option Int
  fcp_base_calculo : Option Int
  fcp_percentual : Option Int
  fcp_valor : Option Int
  valor_tributos_aprox : Option Int
  quantidade_comercial : Option Int
  issqn_valor_base_calculo : Option Int
  issqn_aliquota : Option Int
  issqn_valor : Option Int
  issqn_municipio : Option String
  issqn_lista_servico : Option String
  issqn_indiss : Option String
  issqn_indincentivo : Option String
  ipi_codigo_enquadramento : Option String
  ipi_situacao_tributaria : Option String
  ipi_valor_base_calculo : Option Int
  ipi_aliquota : Option Int
  ipi_valor_ipi : Option Int
  pis_modalidade : String
  pis_valor_base_calculo : Option Int
  pis_aliquota_percentual : Option Int
  pis_valor : Option Int
  cofins_modalidade : String
  cofins_valor_base_calculo : Option Int
  cofins_aliquota_percentual : Option Int
  cofins_valor : Option Int
  icms_ufdest : Option UFDest

/-- `nota_fiscal and nota_fiscal.cliente_final and not
produto_servico.icms_st_retido` (serializacao.py:369 and 462). -/
def clienteFinalSemRetido (nf : Option NotaFiscal) (p : ProdutoServico) : Bool :=
  (match nf with
   | some n => n.cliente_final != 0
   | none => false) && !p.icms_st_retido

/-- The final `else` of the ICMS dispatch (serializacao.py:387-492):
codes 40/41/50 get the reduced `ICMS40` shape; every other code —
including any code outside the enumerated set — gets an
`ICMS{code}` element with `orig`, `CST` and (except for 40/50) `modBC`,
plus the per-code value fields; codes 30 and 60 delete the `modBC`
child again after inserting it. -/
def icmsOutros (p : ProdutoServico) (nf : Option NotaFiscal) : XmlTree :=
  if p.icms_modalidade ∈ (["40", "41", "50"] : List String) then
    .el "ICMS40" [] none
      [leaf "orig" (toString p.icms_origem), leaf "CST" p.icms_modalidade]
  else
    let base :=
      [leaf "orig" (toString p.icms_origem), leaf "CST" p.icms_modalidade] ++
      (if p.icms_modalidade ∉ (["40", "50"] : List String) then
        [leaf "modBC" (strI p.icms_modalidade_determinacao_bc)]
      else [])
    let children :=
      if p.icms_modalidade == "00" then
        base ++ [leaf "vBC" (fmt2o p.icms_valor_base_calculo),
                 leaf "pICMS" (fmt2o p.icms_aliquota),
                 leaf "vICMS" (fmt2o p.icms_valor)]
      else if p.icms_modalidade == "10" then
        base ++ [leaf "vBC" (fmt2o p.icms_valor_base_calculo),
                 leaf "pICMS" (fmt2o p.icms_aliquota),
                 leaf "vICMS" (fmt2o p.icms_valor),
                 leaf "modBCST" (strI0 p.icms_st_modalidade_determinacao_bc)] ++
        (if truthyD p.icms_st_percentual_adicional then
          [leaf "pMVAST" (strD0 p.icms_st_percentual_adicional)] else []) ++
        (if truthyD p.icms_st_percentual_reducao_bc then
          [leaf "pRedBCST" (strD0 p.icms_st_percentual_reducao_bc)] else []) ++
        [leaf "vBCST" (strD0 p.icms_st_valor_base_calculo),
         leaf "pICMSST" (strD0 p.icms_st_aliquota),
         leaf "vICMSST" (strD0 p.icms_st_valor)]
      else if p.icms_modalidade == "20" || p.icms_modalidade == "70" then
        base ++ [leaf "pRedBC" (fmt4o p.icms_percentual_reducao_bc),
                 leaf "vBC" (fmt2o p.icms_valor_base_calculo),
                 leaf "pICMS" (fmt2o p.icms_aliquota),
                 leaf "vICMS" (fmt2o p.icms_valor)] ++
        (if p.icms_modalidade == "70" then
          [leaf "modBCST" (strI0 p.icms_st_modalidade_determinacao_bc)] ++
          (if truthyD p.icms_st_percentual_adicional then
            [leaf "pMVAST" (strD0 p.icms_st_percentual_adicional)] else []) ++
          (if truthyD p.icms_st_percentual_reducao_bc then
            [leaf "pRedBCST" (strD0 p.icms_st_percentual_reducao_bc)] else []) ++
          [leaf "vBCST" (fmt2o p.icms_st_valor_base_calculo),
           leaf "pICMSST" (strD0 p.icms_st_aliquota),
           leaf "vICMSST" (fmt2o p.icms_st_valor)]
        else []) ++
        (if truthyD p.fcp_valor then
          [leaf "vBCFCP" (fmt2o p.fcp_base_calculo),
           leaf "pFCP" (fmt2o p.fcp_percentual),
           leaf "vFCP" (fmt2o p.fcp_valor)]
        else [])
      else if p.icms_modalidade == "30" then
        removeTag "modBC" base ++
        [leaf "modBCST" (strI0 p.icms_st_modalidade_determinacao_bc),
         leaf "vBCST" (strD0 p.icms_st_valor_base_calculo),
         leaf "pICMSST" (strD0 p.icms_st_aliquota),
         leaf "vICMSST" (strD0 p.icms_st_valor)]
      else if p.icms_modalidade == "51" then
        base ++ [leaf "pRedBC" (fmt4o p.icms_percentual_reducao_bc),
                 leaf "vBC" (fmt2o p.icms_valor_base_calculo),
                 leaf "pICMS" (fmt2o p.icms_aliquota),
                 leaf "vICMS" (fmt2o p.icms_valor)]
      else if p.icms_modalidade == "60" then
        removeTag "modBC" base ++
        (if clienteFinalSemRetido nf p then
          [leaf "vBCSTRet" (fmt2 0),
           leaf "pST" (fmt4 0),
           leaf "vICMSSubstituto" (fmt2o p.icms_st_substituto),
           leaf "vICMSSTRet" (fmt2 0),
           leaf "pRedBCEfet" (fmt4o p.icms_st_percentual_reducao_bc),
           leaf "vBCEfet" (fmt2o p.icms_st_valor_base_calculo),
           leaf "pICMSEfet" (fmt4o p.icms_st_aliquota),
           leaf "vICMSEfet" (fmt2o p.icms_st_valor)]
        else
          [leaf "vBCSTRet" (fmt2o p.icms_st_valor_base_calculo),
           leaf "pST" (fmt4o p.icms_st_aliquota),
           leaf "vICMSSubstituto" (fmt2o p.icms_st_substituto),
           leaf "vICMSSTRet" (fmt2 0)])
      else if p.icms_modalidade == "90" then
        base ++ [leaf "vBC" (fmt2o p.icms_valor_base_calculo),
                 leaf "pICMS" (fmt2o p.icms_aliquota),
                 leaf "vICMS" (fmt2o p.icms_valor),
                 leaf "modBCST" (strI0 p.icms_st_modalidade_determinacao_bc),
                 leaf "vBCST" (strD0 p.icms_st_valor_base_calculo),
                 leaf "pICMSST" (strD0 p.icms_st_aliquota),
                 leaf "vICMSST" (strD0 p.icms_st_valor)]
      else base
    .el ("ICMS" ++ p.icms_modalidade) [] none children

/-- The `icms_item` element: the full ICMS regime dispatch of
`_serializar_produto_servico` (serializacao.py:308-492).  The `'201'`
arm evaluates `int(nota_fiscal.emitente.codigo_de_regime_tributario)`;
with `nota_fiscal=None` that attribute access raises. -/
def icmsItem (p : ProdutoServico) (nf : Option NotaFiscal) : Except PyErr XmlTree :=
  if p.icms_modalidade ∈ (["102", "103", "300", "400"] : List String) then
    .ok (.el "ICMSSN102" [] none
      [leaf "orig" (toString p.icms_origem), leaf "CSOSN" p.icms_csosn])
  else if p.icms_modalidade == "101" then
    .ok (.el ("ICMSSN" ++ p.icms_modalidade) [] none
      [leaf "orig" (toString p.icms_origem),
       leaf "CSOSN" p.icms_csosn,
       leaf "pCredSN" (strD p.icms_aliquota),
       leaf "vCredICMSSN" (fmt2o p.icms_credito)])
  else if p.icms_modalidade == "201" then
    match nf with
    | none => .error .attributeError
    | some n =>
      if n.emitente.codigo_de_regime_tributario == 1 then
        .ok (.el "ICMSSN201" [] none
          ([leaf "orig" (toString p.icms_origem),
            leaf "CSOSN" p.icms_csosn,
            leaf "modBCST" (strI p.icms_modalidade_determinacao_bc),
            leaf "pMVAST" (fmt2o p.icms_st_percentual_adicional),
            leaf "pRedBCST" (fmt2o p.icms_st_valor_base_calculo),
            leaf "vBCST" (fmt2o p.icms_st_valor_base_calculo),
            leaf "pICMSST" (fmt4o p.icms_st_aliquota),
            leaf "vICMSST" (fmt2o p.icms_st_valor)] ++
           (if truthyD p.fcp_valor then
             [leaf "vBCFCP" (fmt2o p.fcp_base_calculo),
              leaf "pFCP" (fmt2o p.fcp_percentual),
              leaf "vFCP" (fmt2o p.fcp_valor)]
           else []) ++
           [leaf "pCredSN" (strD p.icms_aliquota),
            leaf "vCredICMSSN" (fmt2o p.icms_credito)]))
      else .ok (icmsOutros p nf)
  else if p.icms_modalidade == "900" then
    .ok (.el "ICMSSN900" [] none
      [leaf "orig" (toString p.icms_origem),
       leaf "CSOSN" p.icms_csosn,
       leaf "modBC" (strI p.icms_modalidade_determinacao_bc),
       leaf "vBC" (fmt2o p.icms_valor_base_calculo),
       leaf "pRedBC" (fmt4o p.icms_percentual_reducao_bc),
       leaf "pICMS" (fmt2o p.icms_aliquota),
       leaf "vICMS" (fmt2o p.icms_valor),
       leaf "modBCST" (strI0 p.icms_st_modalidade_determinacao_bc),
       leaf "pMVAST" (fmt4o p.icms_st_percentual_adicional),
       leaf "pRedBCST" (fmt4o p.icms_st_percentual_reducao_bc),
       leaf "vBCST" (fmt2o p.icms_st_valor_base_calculo),
       leaf "pICMSST" (fmt4o p.icms_st_aliquota),
       leaf "vICMSST" (fmt2o p.icms_st_valor)])
  else if p.icms_modalidade == "ST" then
    .ok (.el ("ICMS" ++ p.icms_modalidade) [] none
      [leaf "orig" (toString p.icms_origem),
       leaf "CST" "41",
       leaf "vBCSTRet" "",
       leaf "vICMSSTRet" "",
       leaf "vBCSTDest" "",
       leaf "vICMSSTDest" ""])
  else if p.icms_modalidade == "500" then
    if clienteFinalSemRetido nf p then
      .ok (.el ("ICMSSN" ++ p.icms_modalidade) [] none
        [leaf "orig" (toString p.icms_origem),
         leaf "CSOSN" p.icms_csosn,
         leaf "vBCSTRet" (fmt2 0),
         leaf "pST" (fmt4 0),
         leaf "vICMSSubstituto" (fmt2o p.icms_st_substituto),
         leaf "vICMSSTRet" (fmt2 0),
         leaf "pRedBCEfet" (fmt4o p.icms_st_percentual_reducao_bc),
         leaf "vBCEfet" (fmt2o p.icms_st_valor_base_calculo),
         leaf "pICMSEfet" (fmt4o p.icms_st_aliquota),
         leaf "vICMSEfet" (fmt2o p.icms_st_valor)])
    else do
      let subst ← fmt2E p.icms_st_substituto
      let ret ← fmt2E p.icms_st_valor
      .ok (.el ("ICMSSN" ++ p.icms_modalidade) [] none
        [leaf "orig" (toString p.icms_origem),
         leaf "CSOSN" p.icms_csosn,
         leaf "vBCSTRet" (fmt2o p.icms_st_valor_base_calculo),
         leaf "pST" (fmt4o p.icms_st_aliquota),
         leaf "vICMSSubstituto" subst,
         leaf "vICMSSTRet" ret])
  else .ok (icmsOutros p nf)

/-- The `ISSQN` element (serializacao.py:498-506). -/
def issqnEl (p : ProdutoServico) : XmlTree :=
  .el "ISSQN" [] none
    [leaf "vBC" (fmt2o p.issqn_valor_base_calculo),
     leaf "vAliq" (fmt2o p.issqn_aliquota),
     leaf "vISSQN" (fmt2o p.issqn_valor),
     leafO "cMunFG" p.issqn_municipio,
     leafO "cListServ" p.issqn_lista_servico,
     leafO "indISS" p.issqn_indiss,
     leafO "indIncentivo" p.issqn_indincentivo]

/-- The `IPI` element body (serializacao.py:512-524). -/
def ipiEl (p : ProdutoServico) : XmlTree :=
  .el "IPI" [] none
    ([leafO "cEnq" p.ipi_codigo_enquadramento] ++
     (if truthyS p.ipi_situacao_tributaria then
       (if (p.ipi_situacao_tributaria.getD "") ∈ (["00", "49", "50", "99"] : List String) then
         [.el "IPITrib" [] none
           [leafO "CST" p.ipi_situacao_tributaria,
            leaf "vBC" (fmt2o p.ipi_valor_base_calculo),
            leaf "pIPI" (fmt2o p.ipi_aliquota),
            leaf "vIPI" (fmt2o p.ipi_valor_ipi)]]
       else
         [.el "IPINT" [] none [leafO "CST" p.ipi_situacao_tributaria]])
     else []))

/-- The `pis_item` element: PIS dispatch (serializacao.py:528-555).
Codes 04-09 are "not taxed"; 01/02 rate-basis; 03 quantity-basis; any
other code falls into `PISOutr`, choosing rate or quantity sub-fields by
whether the declared rate is non-zero. -/
def pisItem (p : ProdutoServico) : Except PyErr XmlTree :=
  if p.pis_modalidade ∈ (["04", "05", "06", "07", "08", "09"] : List String) then
    .ok (.el "PISNT" [] none [leaf "CST" p.pis_modalidade])
  else if p.pis_modalidade == "01" || p.pis_modalidade == "02" then
    .ok (.el "PISAliq" [] none
      [leaf "CST" p.pis_modalidade,
       leaf "vBC" (fmt2o p.pis_valor_base_calculo),
       leaf "pPIS" (fmt2o p.pis_aliquota_percentual),
       leaf "vPIS" (fmt2o p.pis_valor)])
  else if p.pis_modalidade == "03" then do
    let q ← fmt4E p.quantidade_comercial
    .ok (.el "PISQtde" [] none
      [leaf "CST" p.pis_modalidade,
       leaf "qBCProd" q,
       leaf "vAliqProd" (strD p.pis_aliquota_percentual),
       leaf "vPIS" (fmt2o p.pis_valor)])
  else if truthyD p.pis_aliquota_percentual then
    .ok (.el "PISOutr" [] none
      [leaf "CST" p.pis_modalidade,
       leaf "vBC" (fmt2o p.pis_valor_base_calculo),
       leaf "pPIS" (fmt2o p.pis_aliquota_percentual),
       leaf "vPIS" (fmt2o p.pis_valor)])
  else do
    let q ← fmt4E p.quantidade_comercial
    .ok (.el "PISOutr" [] none
      [leaf "CST" p.pis_modalidade,
       leaf "qBCProd" q,
       leaf "vAliqProd" (strD p.pis_aliquota_percentual),
       leaf "vPIS" (fmt2o p.pis_valor)])

/-- The `cofins_item` element: COFINS dispatch (serializacao.py:565-592). -/
def cofinsItem (p : ProdutoServico) : Except PyErr XmlTree :=
  if p.cofins_modalidade ∈ (["04", "05", "06", "07", "08", "09"] : List String) then
    .ok (.el "COFINSNT" [] none [leaf "CST" p.cofins_modalidade])
  else if p.cofins_modalidade == "01" || p.cofins_modalidade == "02" then do
    let v ← fmt2E p.cofins_valor
    .ok (.el "COFINSAliq" [] none
      [leaf "CST" p.cofins_modalidade,
       leaf "vBC" (fmt2o p.cofins_valor_base_calculo),
       leaf "pCOFINS" (fmt2o p.cofins_aliquota_percentual),
       leaf "vCOFINS" v])
  else if p.cofins_modalidade == "03" then do
    let q ← fmt4E p.quantidade_comercial
    let a ← fmt4E p.cofins_aliquota_percentual
    let v ← fmt2E p.cofins_valor
    .ok (.el "COFINSQtde" [] none
      [leaf "CST" p.cofins_modalidade,
       leaf "qBCProd" q,
       leaf "vAliqProd" a,
       leaf "vCOFINS" v])
  else if truthyD p.cofins_aliquota_percentual then
    .ok (.el "COFINSOutr" [] none
      [leaf "CST" p.cofins_modalidade,
       leaf "vBC" (fmt2o p.cofins_valor_base_calculo),
       leaf "pCOFINS" (fmt2o p.cofins_aliquota_percentual),
       leaf "vCOFINS" (fmt2o p.cofins_valor)])
  else do
    let q ← fmt2E p.quantidade_comercial
    let a ← fmt2E p.cofins_aliquota_percentual
    .ok (.el "COFINSOutr" [] none
      [leaf "CST" p.cofins_modalidade,
       leaf "qBCProd" q,
       leaf "vAliqProd" a,
       leaf "vCOFINS" (fmt2o p.cofins_valor)])

/-- The `ICMSUFDest` element (serializacao.py:603-615). -/
def ufdestEl (u : UFDest) : XmlTree :=
  .el "ICMSUFDest" [] none
    ([leaf "vBCUFDest" (fmt2o u.bc_uf_dest)] ++
     (if u.bc_fcp_present then [leaf "vBCFCPUFDest" (fmt2o u.bc_fcp_uf_dest)] else []) ++
     [leaf "pFCPUFDest" (fmt4o u.fcp_percentual_uf_dest),
      leaf "pICMSUFDest" (fmt4o u.icms_percentual_uf_dest),
      leaf "pICMSInter" (fmt2o u.icms_inter),
      leaf "pICMSInterPart" (fmt4o u.icms_inter_part)] ++
     (if u.fcp_present then [leaf "vFCPUFDest" (fmt2o u.fcp_uf_dest)] else []) ++
     [leaf "vICMSUFDest" (fmt2o u.icms_uf_dest),
      leaf "vICMSUFRemet" (fmt2o u.icms_uf_remet)])

/-- The `imposto` element of one line item: the tax portion of
`_serializar_produto_servico` (serializacao.py:294-615).  A present
(truthy) ISSQN base suppresses the ICMS branch and the IPI branch; the
PIS/COFINS and ICMSUFDest branches run whenever `modelo == 55`. -/
def impostoEl (p : ProdutoServico) (nf : Option NotaFiscal) (modelo : Int) :
    Except PyErr XmlTree := do
  let vtt :=
    if truthyD p.valor_tributos_aprox then
      [leaf "vTotTrib" (strD p.valor_tributos_aprox)]
    else []
  let icmsPart ←
    if !truthyD p.issqn_valor_base_calculo then do
      let item ← icmsItem p nf
      pure [XmlTree.el "ICMS" [] none [item]]
    else pure []
  let issqnPart :=
    if truthyD p.issqn_valor_base_calculo then [issqnEl p] else []
  let ipiPart :=
    if p.icms_modalidade != "41" && !truthyD p.issqn_valor_base_calculo &&
       truthyS p.ipi_codigo_enquadramento then
      [ipiEl p]
    else []
  let pisCofins ←
    if modelo == 55 then do
      let pi ← pisItem p
      let co ← cofinsItem p
      pure [XmlTree.el "PIS" [] none [pi], XmlTree.el "COFINS" [] none [co]]
    else pure []
  let ufdestPart :=
    if modelo == 55 then
      match p.icms_ufdest with
      | some u => [ufdestEl u]
      | none => []
    else []
  pure (XmlTree.el "imposto" [] none
    (vtt ++ icmsPart ++ issqnPart ++ ipiPart ++ pisCofins ++ ufdestPart))

/-- Per-instance serializer configuration (`Serializacao.__init__`,
serializacao.py:36-40): environment flag, contingency justification,
cpf-only output mode, application name. -/
structure Config where
  ambiente : Int := 1
  contingencia : Option String := none
  so_cpf : Bool := false
  nome_aplicacao : String := "PyNFe"

/-- The `ide` section of `_serializar_nota_fiscal`
(serializacao.py:646-726), with the state-code table and the computed
timezone suffix passed in (`CODIGOS_ESTADOS` lives in the flags module,
which is not under src/; `tz` is read from the wall clock).  The result
pairs the possibly mutated input record with the built element:
with a contingency justification set, the code first rewrites
`forma_emissao` from `'1'` to `'9'` (lines 698-700) and later reads the
nonexistent attribute `nota_fiscal.self` (line 726), raising
AttributeError, so the element is never returned in contingency mode. -/
def serializarIde (cfg : Config) (codigosEstados : String → Option String)
    (tz : String) (nf : NotaFiscal) : NotaFiscal × Except PyErr XmlTree :=
  match codigosEstados nf.uf with
  | none => (nf, .error .keyError)
  | some cuf =>
    let pre :=
      [leaf "cUF" cuf,
       leaf "cNF" nf.codigo_numerico_aleatorio,
       leaf "natOp" nf.natureza_operacao,
       leaf "mod" (toString nf.modelo),
       leaf "serie" nf.serie,
       leaf "nNF" (toString nf.numero_nf),
       leaf "dhEmi" (nf.data_emissao ++ tz)] ++
      (if nf.modelo == 55 && nf.data_saida_entrada.isSome then
        [leaf "dhSaiEnt" (nf.data_saida_entrada.getD "" ++ tz)]
      else []) ++
      [leaf "tpNF" (toString nf.tipo_documento),
       leaf "idDest" (if nf.modelo == 65 then "1" else toString nf.indicador_destino),
       leaf "cMunFG" nf.municipio,
       leaf "tpImp" (toString nf.tipo_impressao_danfe)]
    let nf2 :=
      if cfg.contingencia.isSome && nf.forma_emissao == "1" then
        { nf with forma_emissao := "9" }
      else nf
    let post :=
      [leaf "tpEmis" nf2.forma_emissao,
       leaf "cDV" nf.dv_codigo_numerico_aleatorio,
       leaf "tpAmb" (toString cfg.ambiente),
       leaf "finNFe" nf.finalidade_emissao] ++
      (if nf.modelo == 65 then
        [leaf "indFinal" "1", leaf "indPres" "1"]
      else
        [leaf "indFinal" (toString nf.cliente_final),
         leaf "indPres" (toString nf.indicador_presencial)]) ++
      [leaf "procEmi" (toString nf.processo_emissao),
       leaf "verProc" (cfg.nome_aplicacao ++ " " ++ nf.versao_processo_emissao)] ++
      (if nf.modelo == 55 && !nf.notas_fiscais_referenciadas.isEmpty then
        nf.notas_fiscais_referenciadas.map
          (fun ch => XmlTree.el "NFref" [] none [leaf "refNFe" ch])
      else [])
    match cfg.contingencia with
    | some _ => (nf2, .error .attributeError)
    | none => (nf2, .ok (.el "ide" [] none (pre ++ post)))

/-- `nota_fiscal.descricao_pagamento or 'Sem Informacao'`
(serializacao.py:911, 922); the surrounding `except` branch produces the
same fallback text. -/
def pagDesc (nf : NotaFiscal) : String :=
  match nf.descricao_pagamento with
  | some s => if s.isEmpty then "Sem Informacao" else s
  | none => "Sem Informacao"

/-- The `card` element (serializacao.py:938-952). -/
def cardEl (nf : NotaFiscal) : XmlTree :=
  .el "card" [] none
    ([leaf "tpIntegra" (strI nf.cartao_tipo_integracao),
      leaf "CNPJ" (digitsOnly (nf.cartao_cnpj.getD "")),
      leaf "tBand" (nf.cartao_tipo_bandeira.getD ""),
      leaf "cAut" (if truthyS nf.cartao_numero_autorizacao then
          (nf.cartao_numero_autorizacao.getD "").take 20 else "")] ++
     (if truthyS nf.cartao_cnpj_receb then
       [leaf "CNPJReceb" (digitsOnly (nf.cartao_cnpj_receb.getD ""))]
     else []) ++
     (if truthyS nf.cartao_terminal_pgto then
       [leaf "idTermPag" ((nf.cartao_terminal_pgto.getD "").take 40)]
     else []) ++
     (match nf.cartao_valor_troco with
      | some v => if v > 0 then [leaf "vTroco" (fmt2 v)] else []
      | none => []))

/-- The `detPag` element of the payment section
(serializacao.py:901-957).  Issuance purposes `'3'` (adjustment) and
`'4'` (return) force `tPag` to `'90'` and `vPag` to the formatted
constant zero; otherwise the declared method (zero-filled to two
digits) and the document grand total are used. -/
def detPagEl (nf : NotaFiscal) : XmlTree :=
  let ind :=
    if truthyD nf.indicacao_pagamento then
      [leaf "indPag" (strI nf.indicacao_pagamento)]
    else []
  if nf.finalidade_emissao == "3" || nf.finalidade_emissao == "4" then
    .el "detPag" [] none
      (ind ++ [leaf "tPag" "90"] ++
       (if nf.tipo_pagamento == "99" then [leaf "xPag" ((pagDesc nf).take 60)] else []) ++
       [leaf "vPag" (fmt2 0)])
  else
    .el "detPag" [] none
      (ind ++ [leaf "tPag" (zfill2 nf.tipo_pagamento)] ++
       (if nf.tipo_pagamento == "99" then [leaf "xPag" ((pagDesc nf).take 60)] else []) ++
       [(if zfill2 nf.tipo_pagamento == "90" then
           leaf "vPag" (fmt2 0)
         else
           leaf "vPag" (fmt2 nf.totais_icms_total_nota))] ++
       (if truthyD nf.cartao_tipo_integracao then [cardEl nf] else []))

/-- The `pag` element (serializacao.py:900-901). -/
def pagEl (nf : NotaFiscal) : XmlTree := .el "pag" [] none [detPagEl nf]

/-- Event record attributes read by `serializar_evento`
(serializacao.py:988-1016). -/
structure Evento where
  identificador : String
  uf : String
  cnpj : String
  chave : String
  data_emissao : String
  tp_evento : String
  n_seq_evento : Int
  descricao : String
  protocolo : String
  justificativa : String
  correcao : String
  cond_uso : String

/-- `re.sub(r'[\t\r\n]', '', s)` (serializacao.py:1012). -/
def stripCtl (s : String) : String :=
  String.mk (s.data.filter (fun c => !(c == '\t' || c == '\r' || c == '\n')))

/-- `SerializacaoXML.serializar_evento` (serializacao.py:988-1020): a
three-way dispatch on the event description; any other description
leaves the `detEvento` block with only the `descEvento` child and the
event document is still returned.  The state-code table and timezone
suffix are passed in as for the ide section. -/
def serializar_evento (cfg : Config) (codigosEstados : String → Option String)
    (tz : String) (ev : Evento) : Except PyErr XmlTree :=
  match codigosEstados (pyUpper ev.uf) with
  | none => .error .keyError
  | some corgao =>
    let det := XmlTree.el "detEvento" [("versao", "1.00")] none
      ([leaf "descEvento" ev.descricao] ++
       (if ev.descricao == "Cancelamento" then
         [leaf "nProt" ev.protocolo, leaf "xJust" ev.justificativa]
       else if ev.descricao == "Carta de Correcao" then
         [leaf "xCorrecao" (stripCtl ev.correcao), leaf "xCondUso" ev.cond_uso]
       else if ev.descricao == "Operacao nao Realizada" then
         [leaf "xJust" ev.justificativa]
       else []))
    .ok (.el "evento" [("versao", "1.00")] none
      [.el "infEvento" [("Id", ev.identificador)] none
        [leaf "cOrgao" corgao,
         leaf "tpAmb" (toString cfg.ambiente),
         leaf "CNPJ" ev.cnpj,
         leaf "chNFe" ev.chave,
         leaf "dhEvento" (ev.data_emissao ++ tz),
         leaf "tpEvento" ev.tp_evento,
         leaf "nSeqEvento" (toString ev.n_seq_evento),
         leaf "verEvento" "1.00",
         det]])

/-!  QR-code builder (`SerializacaoQrcode.gerar_qrcode`,
serializacao.py:1025-1120).  The values the method extracts from the
signed document by xpath are carried as the fields of QrDoc. -/

/-- Modelled from the spec: the QR layout-version constant
(`VERSAO_QRCODE`, in the flags module, not under src/); the source
comment at serializacao.py:1057 records the value 2. -/
def VERSAO_QRCODE : String := "2"

/-- The values `gerar_qrcode` reads from the finished, signed document:
the root `Id` attribute and the `dhEmi`, `tpAmb`, `cUF`, `vNF` and
signature `DigestValue` texts (serializacao.py:1032-1049). -/
structure QrDoc where
  idAttr : String
  dhEmi : String
  tpAmb : String
  cUF : String
  vNF : String
  digestValue : String

/-- `re.sub('([0])', lambda m: replacements[m.group()], token)` with
`replacements = {'0': ''}` (serializacao.py:1054-1055): every match of
the pattern `([0])` — every `'0'` character — is replaced by the empty
string. -/
def tokenTransform : List Char → List Char
  | [] => []
  | c :: cs => if c == '0' then tokenTransform cs else c :: tokenTransform cs

/-- `tokenTransform` on strings. -/
def tokenTransformS (t : String) : String := String.mk (tokenTransform t.data)

/-- `re.findall("-\\d" ++ "{2}", str(data))` (serializacao.py:1051): the
left-to-right non-overlapping scan for a dash followed by exactly two
digits.  (The `b'...'` wrapper that `str()` puts around the encoded
date adds no such match.) -/
def findall2 : List Char → List (Char × Char)
  | '-' :: a :: b :: rest =>
      if a.isDigit && b.isDigit then (a, b) :: findall2 rest
      else findall2 (a :: b :: rest)
  | _ :: rest => findall2 rest
  | [] => []
termination_by l => l.length
decreasing_by all_goals (simp; try omega)

/-- `lista_dia[1]` then `dia[1:]` (serializacao.py:1052-1053): the second
match, with its dash dropped; fewer than two matches raise IndexError. -/
def diaFromData (s : String) : Except PyErr String :=
  match findall2 s.data with
  | _ :: (a, b) :: _ => .ok (String.mk [a, b])
  | _ => .error .indexError

/-- The authentication string `url` before hashing
(serializacao.py:1051-1068): online mode is
`chave|versao|tpamb|token`, offline mode is
`chave|versao|tpamb|dia|total|digest|token`, where `chave` is the root
Id with the literal `NFe` removed, the token has had its `'0'`
characters removed, and `digest` is the lowercase hex encoding of the
ASCII-lowercased signature DigestValue (`digest.lower().hex()`). -/
def qrAuthString (doc : QrDoc) (token : String) (online : Bool) :
    Except PyErr String :=
  let chave := removeNFeS doc.idAttr
  let tk := tokenTransformS token
  if online then
    .ok (chave ++ "|" ++ VERSAO_QRCODE ++ "|" ++ doc.tpAmb ++ "|" ++ tk)
  else do
    let dia ← diaFromData doc.dhEmi
    let digest := hexLower ((bytesOfAscii doc.digestValue).map lowerByte)
    .ok (chave ++ "|" ++ VERSAO_QRCODE ++ "|" ++ doc.tpAmb ++ "|" ++ dia ++ "|" ++
         doc.vNF ++ "|" ++ digest ++ "|" ++ tk)

/-- Lines 1070-1074: `url_complementar = url + csc`, SHA-1, uppercase
base-16, and the final `'p=' + url + '|' + hash` string. -/
def qrFinalUrl (authUrl csc : String) : String :=
  "p=" ++ authUrl ++ "|" ++ b16encode (sha1 (bytesOfAscii (authUrl ++ csc)))

/-- The complete QR string `url` as it stands after serializacao.py:1074,
ready to be appended to the per-jurisdiction QR base URL. -/
def gerar_qrcode_url (doc : QrDoc) (token csc : String) (online : Bool) :
    Except PyErr String := do
  let u ← qrAuthString doc token online
  .ok (qrFinalUrl u csc)

/-- Modelled from the spec: one entry of the per-jurisdiction URL-template
table `NFCE` (pynfe.utils.webservices, not under src/): a dict whose
possible keys are `QR`, `URL`, `HTTPS` and `HOMOLOGACAO`; a missing key
raises KeyError. -/
structure NfceEntry where
  qr : Option String := none
  url : Option String := none
  https : Option String := none
  homologacao : Option String := none

/-- Python dict `[]` access: KeyError when the key is absent. -/
def dictGet (o : Option α) : Except PyErr α :=
  match o with
  | some v => .ok v
  | none => .error .keyError

/-- `[key for key, value in CODIGOS_ESTADOS.items() if value == cuf][0]`
(serializacao.py:1036): IndexError when no state maps to the code. -/
def ufFromCuf (estados : List (String × String)) (cuf : String) :
    Except PyErr String :=
  match estados.filter (fun kv => kv.2 == cuf) with
  | [] => .error .indexError
  | kv :: _ => .ok kv.1

/-- The jurisdiction dispatch of `gerar_qrcode`
(serializacao.py:1079-1104), producing the `(qrcode, url_chave)` pair.
Every branch starts by indexing `NFCE[uf.upper()]`, so a state code
absent from the table raises KeyError in each of them. -/
def qrJurisdiction (estados : List (String × String))
    (nfce : String → Option NfceEntry) (tpamb : String) (cuf : String)
    (url : String) : Except PyErr (String × String) := do
  let uf ← ufFromCuf estados cuf
  let ufU := pyUpper uf
  if ufU ∈ (["PR", "CE", "RS", "RJ", "RO", "DF"] : List String) then do
    let entry ← dictGet (nfce ufU)
    let qr ← dictGet entry.qr
    let u ← dictGet entry.url
    .ok (qr ++ url, u)
  else if ufU == "SP" then do
    let entry ← dictGet (nfce ufU)
    let https ← dictGet entry.https
    let qr ← dictGet entry.qr
    let u ← dictGet entry.url
    if tpamb == "1" then
      .ok (https ++ "www." ++ qr ++ url, https ++ "www." ++ u)
    else
      .ok (https ++ "www.homologacao." ++ qr ++ url, https ++ "www.homologacao." ++ u)
  else if ufU == "BA" then do
    let entry ← dictGet (nfce ufU)
    let qrcode ←
      if tpamb == "1" then do
        let https ← dictGet entry.https
        let qr ← dictGet entry.qr
        pure (https ++ qr ++ url)
      else do
        let hom ← dictGet entry.homologacao
        let qr ← dictGet entry.qr
        pure (hom ++ qr ++ url)
    let u ← dictGet entry.url
    .ok (qrcode, u)
  else do
    let entry ← dictGet (nfce ufU)
    if tpamb == "1" then do
      let https ← dictGet entry.https
      let qr ← dictGet entry.qr
      let u ← dictGet entry.url
      .ok (https ++ qr ++ url, https ++ u)
    else do
      let hom ← dictGet entry.homologacao
      let qr ← dictGet entry.qr
      let u ← dictGet entry.url
      .ok (hom ++ qr ++ url, hom ++ u)

/-!  Concrete records used by the witness and counterexample theorems. -/

/-- A baseline line item: ICMS 00, PIS/COFINS 01, no ISSQN. -/
def pBase : ProdutoServico := {
  icms_modalidade := "00", icms_origem := 0, icms_csosn := "",
  icms_aliquota := some 1800, icms_credito := none,
  icms_modalidade_determinacao_bc := some 3,
  icms_valor_base_calculo := some 10000, icms_percentual_reducao_bc := none,
  icms_valor := some 1800,
  icms_st_modalidade_determinacao_bc := none, icms_st_percentual_adicional := none,
  icms_st_percentual_reducao_bc := none, icms_st_valor_base_calculo := none,
  icms_st_aliquota := none, icms_st_valor := none, icms_st_retido := false,
  icms_st_substituto := none,
  fcp_base_calculo := none, fcp_percentual := none, fcp_valor := none,
  valor_tributos_aprox := none, quantidade_comercial := some 100,
  issqn_valor_base_calculo := none, issqn_aliquota := none, issqn_valor := none,
  issqn_municipio := none, issqn_lista_servico := none, issqn_indiss := none,
  issqn_indincentivo := none,
  ipi_codigo_enquadramento := none, ipi_situacao_tributaria := none,
  ipi_valor_base_calculo := none, ipi_aliquota := none, ipi_valor_ipi := none,
  pis_modalidade := "01", pis_valor_base_calculo := some 10000,
  pis_aliquota_percentual := some 165, pis_valor := some 165,
  cofins_modalidade := "01", cofins_valor_base_calculo := some 10000,
  cofins_aliquota_percentual := some 760, cofins_valor := some 760,
  icms_ufdest := none }

/-- A baseline fiscal document record. -/
def nfBase : NotaFiscal := {
  identificador_unico := "NFe31240500000000000000550010000000011000000001",
  uf := "MG", codigo_numerico_aleatorio := "00000001",
  natureza_operacao := "VENDA", modelo := 55, serie := "1", numero_nf := 1,
  data_emissao := "2024-05-17T10:11:12", data_saida_entrada := none,
  tipo_documento := 1, indicador_destino := 1, municipio := "3106200",
  tipo_impressao_danfe := 1, forma_emissao := "1",
  dv_codigo_numerico_aleatorio := "1", finalidade_emissao := "1",
  cliente_final := 0, indicador_presencial := 1, processo_emissao := 0,
  versao_processo_emissao := "1.0",
  notas_fiscais_referenciadas := [], emitente := ⟨3⟩,
  indicacao_pagamento := none, tipo_pagamento := "01",
  descricao_pagamento := none, totais_icms_total_nota := 10000,
  cartao_tipo_integracao := none, cartao_cnpj := none,
  cartao_tipo_bandeira := none, cartao_numero_autorizacao := none,
  cartao_cnpj_receb := none, cartao_terminal_pgto := none,
  cartao_valor_troco := none }

/-- Line item with every tax-family regime code outside the enumerated
sets (used for claim C1). -/
def p77 : ProdutoServico :=
  { pBase with icms_modalidade := "77", pis_modalidade := "77",
               cofins_modalidade := "77" }

/-- Line item with a present ISSQN base (used for claim C2). -/
def pC2 : ProdutoServico := { pBase with issqn_valor_base_calculo := some 5000 }

/-- Line item with ICMS code 30 (used for claim C6). -/
def p30 : ProdutoServico := { pBase with icms_modalidade := "30" }

/-- Configuration with a contingency justification set (claims C7, C8). -/
def cfgCont : Config := { contingencia := some "PROBLEMAS COM A INTERNET DA EMPRESA" }

/-- State-code table fragment mapping MG to 31 (witnesses). -/
def ceMG : String → Option String := fun u => if u == "MG" then some "31" else none

/-- The extracted document values of a concrete signed NFC-e (claim C3). -/
def docC3 : QrDoc :=
  { idAttr := "NFe31240500000000000000650010000000011000000001",
    dhEmi := "2024-05-17T10:11:12-03:00", tpAmb := "1", cUF := "31",
    vNF := "100.00", digestValue := "Qm9vazNkNGYr+TEST=" }

/-- An event record whose description is none of the three known event
types (claim C10). -/
def evFoo : Evento :=
  { identificador := "ID1101113124050000000000000055001000000001100000000101",
    uf := "mg", cnpj := "11222333000181",
    chave := "31240500000000000000550010000000011000000001",
    data_emissao := "2024-05-17T10:11:12", tp_evento := "110111",
    n_seq_evento := 1, descricao := "Foo", protocolo := "",
    justificativa := "", correcao := "", cond_uso := "" }

/-- Tags of the children of the `detEvento` element of an event document. -/
def detEventoTags (t : XmlTree) : Option (List String) :=
  ((firstTag "infEvento" t.children).bind
    (fun i => firstTag "detEvento" i.children)).map
    (fun d => d.children.map XmlTree.tag)

/-- The ICMS regime codes that name a dedicated branch of the dispatch in
`_serializar_produto_servico` (serializacao.py:308-492); `201` reaches
its own branch only under CRT 1 but is enumerated there. -/
def knownIcmsCodes : List String :=
  ["102", "103", "300", "400", "101", "201", "900", "ST", "500",
   "40", "41", "50", "00", "10", "20", "70", "30", "51", "60", "90"]

/-- The PIS/COFINS codes that name a dedicated branch
(serializacao.py:528-592): the not-taxed set 04-09 and 01, 02, 03. -/
def knownPisCofinsCodes : List String :=
  ["04", "05", "06", "07", "08", "09", "01", "02", "03"]

/-- Follows the spec's words for claim C4: strip exactly the leading zero
digits of the token's numeric prefix, leaving every other character
(including non-leading zeros) unchanged. -/
def stripLeadingZeros (t : String) : String :=
  String.mk (t.data.dropWhile (fun c => c == '0'))

/-- Follows the spec's words for claim C3: the offline authentication
string recombined as access-key, layout-version, environment,
two-digit day, grand total, digest and token joined by pipes. -/
def offlineAuthSpec (doc : QrDoc) (token dia : String) : String :=
  removeNFeS doc.idAttr ++ "|" ++ VERSAO_QRCODE ++ "|" ++ doc.tpAmb ++ "|" ++ dia ++
  "|" ++ doc.vNF ++ "|" ++ hexLower ((bytesOfAscii doc.digestValue).map lowerByte) ++
  "|" ++ tokenTransformS token

/-!  Theorems.  Helper lemmas come first, then one block per claim. -/

theorem sha1_length (msg : List Nat) : (sha1 msg).length = 20 := by
  simp [sha1, be32]

theorem exceptBindOk (a : α) (f : α → Except PyErr β) :
    (Except.ok a >>= f) = f a := rfl

theorem exceptBindErr (e : PyErr) (f : α → Except PyErr β) :
    ((Except.error e : Except PyErr α) >>= f) = .error e := rfl

theorem digit_ne_dash (c : Char) (h : c.isDigit = true) : ¬ c = '-' := by
  intro he
  subst he
  exact absurd h (by decide)

theorem findall2_skip (c : Char) (l : List Char) (h : ¬ c = '-') :
    findall2 (c :: l) = findall2 l := by
  rcases l with _ | ⟨a, _ | ⟨b, rest⟩⟩ <;> simp [findall2, h]

theorem findall2_take (a b : Char) (rest : List Char)
    (ha : a.isDigit = true) (hb : b.isDigit = true) :
    findall2 ('-' :: a :: b :: rest) = (a, b) :: findall2 rest := by
  simp [findall2, ha, hb]

theorem findall2_emi (y1 y2 y3 y4 m1 m2 d1 d2 : Char) (rest : List Char)
    (hy1 : y1.isDigit = true) (hy2 : y2.isDigit = true)
    (hy3 : y3.isDigit = true) (hy4 : y4.isDigit = true)
    (hm1 : m1.isDigit = true) (hm2 : m2.isDigit = true)
    (hd1 : d1.isDigit = true) (hd2 : d2.isDigit = true) :
    findall2 ([y1, y2, y3, y4, '-', m1, m2, '-', d1, d2, 'T'] ++ rest) =
      (m1, m2) :: (d1, d2) :: findall2 rest := by
  simp only [List.cons_append, List.nil_append]
  rw [findall2_skip _ _ (digit_ne_dash _ hy1),
      findall2_skip _ _ (digit_ne_dash _ hy2),
      findall2_skip _ _ (digit_ne_dash _ hy3),
      findall2_skip _ _ (digit_ne_dash _ hy4),
      findall2_take _ _ _ hm1 hm2,
      findall2_take _ _ _ hd1 hd2,
      findall2_skip _ _ (by decide : ¬ 'T' = '-')]

theorem diaFromData_emi (s : String) (y1 y2 y3 y4 m1 m2 d1 d2 : Char)
    (rest : List Char)
    (hfmt : s.data = [y1, y2, y3, y4, '-', m1, m2, '-', d1, d2, 'T'] ++ rest)
    (hy1 : y1.isDigit = true) (hy2 : y2.isDigit = true)
    (hy3 : y3.isDigit = true) (hy4 : y4.isDigit = true)
    (hm1 : m1.isDigit = true) (hm2 : m2.isDigit = true)
    (hd1 : d1.isDigit = true) (hd2 : d2.isDigit = true) :
    diaFromData s = .ok (String.mk [d1, d2]) := by
  unfold diaFromData
  rw [hfmt, findall2_emi y1 y2 y3 y4 m1 m2 d1 d2 rest hy1 hy2 hy3 hy4 hm1 hm2 hd1 hd2]

theorem pisItem_ok (p : ProdutoServico) (hq : p.quantidade_comercial.isSome = true) :
    ∃ y, pisItem p = .ok y := by
  obtain ⟨q, hqe⟩ := Option.isSome_iff_exists.mp hq
  unfold pisItem
  rw [hqe]
  split_ifs <;> exact ⟨_, rfl⟩

theorem cofinsItem_ok (p : ProdutoServico)
    (hq : p.quantidade_comercial.isSome = true)
    (hv : p.cofins_valor.isSome = true)
    (ha : p.cofins_aliquota_percentual.isSome = true) :
    ∃ z, cofinsItem p = .ok z := by
  obtain ⟨q, hqe⟩ := Option.isSome_iff_exists.mp hq
  obtain ⟨v, hve⟩ := Option.isSome_iff_exists.mp hv
  obtain ⟨a, hae⟩ := Option.isSome_iff_exists.mp ha
  unfold cofinsItem
  rw [hqe, hve, hae]
  split_ifs <;> exact ⟨_, rfl⟩

/-- Claim C1, counterexample: for the line item `p77`, whose ICMS, PIS and
COFINS regime codes are all the unknown code `77`, serialization does not
raise any error: the imposto sub-tree is emitted through the catch-all
default branches, containing an `ICMS77` element, a `PISOutr` element and
a `COFINSOutr` element — refuting the claim that an unrecognized code
raises a typed UnknownTaxRegimeError and emits no tax sub-tree (no such
error type exists anywhere in the code). -/
theorem c1_unknown_regime_counterexample :
    okB (impostoEl p77 (some nfBase) 55) = true ∧
    (childrenOf (impostoEl p77 (some nfBase) 55)).map
      (fun c => c.children.map XmlTree.tag) =
      [["ICMS77"], ["PISOutr"], ["COFINSOutr"]] := by
  exact ⟨rfl, rfl⟩

/-- Claim C1, amended: a line item whose ICMS regime code is outside the
enumerated set is serialized through the final `else` of the dispatch,
yielding an `ICMS{code}` element with `orig`, `CST` and `modBC` children;
a PIS or COFINS code outside its enumerated set falls into the
`PISOutr` / `COFINSOutr` catch-all.  No error is raised and no typed
UnknownTaxRegimeError exists. -/
theorem c1_unknown_regime_default (p : ProdutoServico) (nf : Option NotaFiscal)
    (hi : p.icms_modalidade ∉ knownIcmsCodes)
    (hp : p.pis_modalidade ∉ knownPisCofinsCodes)
    (hc : p.cofins_modalidade ∉ knownPisCofinsCodes)
    (hq : p.quantidade_comercial.isSome = true)
    (ha : p.cofins_aliquota_percentual.isSome = true) :
    icmsItem p nf = .ok (.el ("ICMS" ++ p.icms_modalidade) [] none
      [leaf "orig" (toString p.icms_origem),
       leaf "CST" p.icms_modalidade,
       leaf "modBC" (strI p.icms_modalidade_determinacao_bc)]) ∧
    (∃ y, pisItem p = .ok y ∧ y.tag = "PISOutr") ∧
    (∃ z, cofinsItem p = .ok z ∧ z.tag = "COFINSOutr") := by
  simp only [knownIcmsCodes, knownPisCofinsCodes, List.mem_cons,
    List.not_mem_nil, or_false, not_or] at hi hp hc
  obtain ⟨h102, h103, h300, h400, h101, h201, h900, hST, h500, h40, h41,
    h50, h00, h10, h20, h70, h30, h51, h60, h90⟩ := hi
  obtain ⟨p04, p05, p06, p07, p08, p09, p01, p02, p03⟩ := hp
  obtain ⟨c04, c05, c06, c07, c08, c09, c01, c02, c03⟩ := hc
  obtain ⟨q, hqe⟩ := Option.isSome_iff_exists.mp hq
  obtain ⟨a, hae⟩ := Option.isSome_iff_exists.mp ha
  refine ⟨?_, ?_, ?_⟩
  · simp [icmsItem, icmsOutros, h102, h103, h300, h400, h101, h201, h900,
      hST, h500, h40, h41, h50, h00, h10, h20, h70, h30, h51, h60, h90]
  · by_cases hr : truthyD p.pis_aliquota_percentual = true
    · exact ⟨XmlTree.el "PISOutr" [] none
        [leaf "CST" p.pis_modalidade,
         leaf "vBC" (fmt2o p.pis_valor_base_calculo),
         leaf "pPIS" (fmt2o p.pis_aliquota_percentual),
         leaf "vPIS" (fmt2o p.pis_valor)],
        by simp [pisItem, p04, p05, p06, p07, p08, p09, p01, p02, p03, hr],
        rfl⟩
    · exact ⟨XmlTree.el "PISOutr" [] none
        [leaf "CST" p.pis_modalidade,
         leaf "qBCProd" (fmt4 q),
         leaf "vAliqProd" (strD p.pis_aliquota_percentual),
         leaf "vPIS" (fmt2o p.pis_valor)],
        by simp [pisItem, p04, p05, p06, p07, p08, p09, p01, p02, p03, hr,
          hqe, fmt4E]; rfl,
        rfl⟩
  · by_cases hr : truthyD p.cofins_aliquota_percentual = true
    · exact ⟨XmlTree.el "COFINSOutr" [] none
        [leaf "CST" p.cofins_modalidade,
         leaf "vBC" (fmt2o p.cofins_valor_base_calculo),
         leaf "pCOFINS" (fmt2o p.cofins_aliquota_percentual),
         leaf "vCOFINS" (fmt2o p.cofins_valor)],
        by simp [cofinsItem, c04, c05, c06, c07, c08, c09, c01, c02, c03, hr],
        rfl⟩
    · rw [hae] at hr
      exact ⟨XmlTree.el "COFINSOutr" [] none
        [leaf "CST" p.cofins_modalidade,
         leaf "qBCProd" (fmt2 q),
         leaf "vAliqProd" (fmt2 a),
         leaf "vCOFINS" (fmt2o p.cofins_valor)],
        by simp [cofinsItem, c04, c05, c06, c07, c08, c09, c01, c02, c03, hr,
          hqe, hae, fmt2E]; rfl,
        rfl⟩

/-- Claim C1, witness for the amended theorem at the concrete item `p77`. -/
theorem c1_unknown_regime_default_witness :
    (p77.icms_modalidade ∉ knownIcmsCodes ∧
     p77.pis_modalidade ∉ knownPisCofinsCodes ∧
     p77.cofins_modalidade ∉ knownPisCofinsCodes ∧
     p77.quantidade_comercial.isSome = true ∧
     p77.cofins_aliquota_percentual.isSome = true) ∧
    (icmsItem p77 (some nfBase) = .ok (.el ("ICMS" ++ p77.icms_modalidade) [] none
      [leaf "orig" (toString p77.icms_origem),
       leaf "CST" p77.icms_modalidade,
       leaf "modBC" (strI p77.icms_modalidade_determinacao_bc)]) ∧
     (∃ y, pisItem p77 = .ok y ∧ y.tag = "PISOutr") ∧
     (∃ z, cofinsItem p77 = .ok z ∧ z.tag = "COFINSOutr")) :=
  ⟨⟨by decide, by decide, by decide, by decide, by decide⟩,
   c1_unknown_regime_default p77 (some nfBase) (by decide) (by decide)
     (by decide) (by decide) (by decide)⟩

/-- Claim C2, counterexample: the line item `pC2` has a present ISSQN base,
yet under document model 55 its imposto sub-tree contains a `PIS` and a
`COFINS` element next to the `ISSQN` element — refuting the claim that a
present ISSQN base excludes all goods-tax sub-trees for every document
model. -/
theorem c2_issqn_counterexample :
    okB (impostoEl pC2 (some nfBase) 55) = true ∧
    countTag "ISSQN" (childrenOf (impostoEl pC2 (some nfBase) 55)) = 1 ∧
    countTag "PIS" (childrenOf (impostoEl pC2 (some nfBase) 55)) = 1 ∧
    countTag "COFINS" (childrenOf (impostoEl pC2 (some nfBase) 55)) = 1 := by
  exact ⟨rfl, rfl, rfl, rfl⟩

/-- Claim C2, amended: a present (truthy) ISSQN base always yields exactly
one `ISSQN` sub-tree and suppresses the `ICMS` and `IPI` sub-trees, for
every document model; but the `PIS` and `COFINS` sub-trees are still
emitted exactly when the model is 55 (they are absent for model 65 and
any other model only because the whole PIS/COFINS section is gated on
model 55, not on ISSQN). -/
theorem c2_issqn_replaces_goods_taxes (p : ProdutoServico) (nf : Option NotaFiscal)
    (modelo : Int)
    (h : truthyD p.issqn_valor_base_calculo = true)
    (hq : p.quantidade_comercial.isSome = true)
    (hv : p.cofins_valor.isSome = true)
    (ha : p.cofins_aliquota_percentual.isSome = true) :
    ∃ x, impostoEl p nf modelo = .ok x ∧
      countTag "ISSQN" x.children = 1 ∧
      countTag "ICMS" x.children = 0 ∧
      countTag "IPI" x.children = 0 ∧
      countTag "PIS" x.children = (if modelo == 55 then 1 else 0) ∧
      countTag "COFINS" x.children = (if modelo == 55 then 1 else 0) := by
  obtain ⟨y, hy⟩ := pisItem_ok p hq
  obtain ⟨z, hz⟩ := cofinsItem_ok p hq hv ha
  have hmain : impostoEl p nf modelo = .ok (.el "imposto" [] none
      ((if truthyD p.valor_tributos_aprox = true then
          [leaf "vTotTrib" (strD p.valor_tributos_aprox)] else []) ++
       ([issqnEl p] ++
        ((if (modelo == 55) = true then
           [XmlTree.el "PIS" [] none [y], XmlTree.el "COFINS" [] none [z]]
         else []) ++
         (if (modelo == 55) = true then
           (match p.icms_ufdest with
            | some u => [ufdestEl u]
            | none => [])
         else []))))) := by
    unfold impostoEl
    cases hm : (modelo == 55) <;> simp [h, hm, hy, hz] <;> try rfl
  refine ⟨_, hmain, ?_, ?_, ?_, ?_, ?_⟩ <;>
    cases hvt : truthyD p.valor_tributos_aprox <;>
    cases hm : (modelo == 55) <;>
    rcases hud : p.icms_ufdest with _ | u <;>
    simp [hvt, hm, hud, countTag, leaf, XmlTree.tag, XmlTree.children,
      issqnEl, ufdestEl, List.filter_append]

/-- Claim C2, witness for the amended theorem at the concrete item `pC2`
and model 55. -/
theorem c2_issqn_replaces_goods_taxes_witness :
    (truthyD pC2.issqn_valor_base_calculo = true ∧
     pC2.quantidade_comercial.isSome = true ∧
     pC2.cofins_valor.isSome = true ∧
     pC2.cofins_aliquota_percentual.isSome = true) ∧
    (∃ x, impostoEl pC2 (some nfBase) 55 = .ok x ∧
      countTag "ISSQN" x.children = 1 ∧
      countTag "ICMS" x.children = 0 ∧
      countTag "IPI" x.children = 0 ∧
      countTag "PIS" x.children = (if (55 : Int) == 55 then 1 else 0) ∧
      countTag "COFINS" x.children = (if (55 : Int) == 55 then 1 else 0)) :=
  ⟨⟨by decide, by decide, by decide, by decide⟩,
   c2_issqn_replaces_goods_taxes pC2 (some nfBase) 55 (by decide) (by decide)
     (by decide) (by decide)⟩

/-- Claim C3: for every finished document, token and csc whose emission
timestamp has the standard `YYYY-MM-DDThh:mm:ss` prefix, the offline-mode
QR authentication string is the pipe-delimited concatenation of the
access key (root Id with `NFe` removed), the layout version, the
environment, the two-digit day of month, the grand total, the lowercase
hex encoding of the (ASCII-lowercased) signature DigestValue, and the
zero-stripped token; and the returned QR string is that string prefixed
with `p=` and suffixed with a pipe followed by the uppercase hex encoding
of the 20-byte SHA-1 digest of the string concatenated with the csc. -/
theorem c3_qr_offline_string (doc : QrDoc) (token csc : String)
    (y1 y2 y3 y4 m1 m2 d1 d2 : Char) (rest : List Char)
    (hfmt : doc.dhEmi.data = [y1, y2, y3, y4, '-', m1, m2, '-', d1, d2, 'T'] ++ rest)
    (hy1 : y1.isDigit = true) (hy2 : y2.isDigit = true)
    (hy3 : y3.isDigit = true) (hy4 : y4.isDigit = true)
    (hm1 : m1.isDigit = true) (hm2 : m2.isDigit = true)
    (hd1 : d1.isDigit = true) (hd2 : d2.isDigit = true) :
    gerar_qrcode_url doc token csc false =
      .ok ("p=" ++ offlineAuthSpec doc token (String.mk [d1, d2]) ++ "|" ++
        b16encode (sha1 (bytesOfAscii
          (offlineAuthSpec doc token (String.mk [d1, d2]) ++ csc)))) ∧
    (sha1 (bytesOfAscii
      (offlineAuthSpec doc token (String.mk [d1, d2]) ++ csc))).length = 20 := by
  constructor
  · unfold gerar_qrcode_url qrAuthString
    rw [diaFromData_emi doc.dhEmi y1 y2 y3 y4 m1 m2 d1 d2 rest hfmt
      hy1 hy2 hy3 hy4 hm1 hm2 hd1 hd2]
    rfl
  · exact sha1_length _

/-- Claim C3, witness at the concrete document `docC3` with token
`000001` and csc `SECRET`. -/
theorem c3_qr_offline_string_witness :
    (docC3.dhEmi.data =
      ['2', '0', '2', '4', '-', '0', '5', '-', '1', '7', 'T'] ++
        "10:11:12-03:00".data) ∧
    (gerar_qrcode_url docC3 "000001" "SECRET" false =
      .ok ("p=" ++ offlineAuthSpec docC3 "000001" (String.mk ['1', '7']) ++ "|" ++
        b16encode (sha1 (bytesOfAscii
          (offlineAuthSpec docC3 "000001" (String.mk ['1', '7']) ++ "SECRET")))) ∧
     (sha1 (bytesOfAscii
       (offlineAuthSpec docC3 "000001" (String.mk ['1', '7']) ++ "SECRET"))).length = 20) :=
  ⟨by decide,
   c3_qr_offline_string docC3 "000001" "SECRET" '2' '0' '2' '4' '0' '5' '1' '7'
     ("10:11:12-03:00".data) (by decide) (by decide) (by decide) (by decide)
     (by decide) (by decide) (by decide) (by decide) (by decide)⟩

/-- Claim C4, counterexample: the token `1024` has no leading zeros, so
the claim says it is passed through unchanged; the code's substitution
removes its interior zero, producing `124`. -/
theorem c4_token_counterexample :
    tokenTransformS "1024" = "124" ∧ stripLeadingZeros "1024" = "1024" ∧
    tokenTransformS "1024" ≠ stripLeadingZeros "1024" := by
  refine ⟨rfl, rfl, ?_⟩
  decide

/-- Claim C4, amended: the token transformation applied before
concatenation removes every `'0'` character of the token, wherever it
occurs — not only the leading zeros of its numeric prefix. -/
theorem c4_token_strips_all_zeros (t : String) :
    tokenTransformS t = String.mk (t.data.filter (fun c => c != '0')) := by
  unfold tokenTransformS
  congr 1
  induction t.data with
  | nil => rfl
  | cons c cs ih =>
    by_cases h : c = '0' <;>
      simp [tokenTransform, List.filter_cons, h, ih, bne_iff_ne]

/-- Claim C5: when the issuance purpose is `'3'` (adjustment) or `'4'`
(return), the serialized payment detail always carries method code `90`
and value `0.00`, for every supplied payment method and value. -/
theorem c5_pagamento_sem_pagamento (nf : NotaFiscal)
    (h : nf.finalidade_emissao = "3" ∨ nf.finalidade_emissao = "4") :
    getText "tPag" (detPagEl nf) = some "90" ∧
    getText "vPag" (detPagEl nf) = some "0.00" := by
  have hb : (nf.finalidade_emissao == "3" || nf.finalidade_emissao == "4") = true := by
    rcases h with h | h <;> simp [h]
  unfold detPagEl
  cases hind : truthyD nf.indicacao_pagamento <;>
    cases hx : (nf.tipo_pagamento == "99") <;>
      simp [hb, hind, hx, getText, firstTag, leaf, XmlTree.children, XmlTree.tag,
        XmlTree.text] <;> rfl

/-- Claim C5, witness: a concrete document with purpose `'3'` and payment
method `01`. -/
theorem c5_pagamento_sem_pagamento_witness :
    (({ nfBase with finalidade_emissao := "3" } : NotaFiscal).finalidade_emissao = "3" ∨
     ({ nfBase with finalidade_emissao := "3" } : NotaFiscal).finalidade_emissao = "4") ∧
    (getText "tPag" (detPagEl { nfBase with finalidade_emissao := "3" }) = some "90" ∧
     getText "vPag" (detPagEl { nfBase with finalidade_emissao := "3" }) = some "0.00") :=
  ⟨Or.inl rfl,
   c5_pagamento_sem_pagamento { nfBase with finalidade_emissao := "3" } (Or.inl rfl)⟩

/-- Claim C6: for ICMS regime codes 30, 40, 41, 50 and 60 the serialized
ICMS item contains no `modBC` child (codes 40/41/50 because the reduced
`ICMS40` shape never adds it, codes 30/60 because the inserted `modBC`
child is removed again), while for code 00 exactly one `modBC` child is
present. -/
theorem c6_modBC_presence (p q : ProdutoServico) (nf ng : Option NotaFiscal)
    (hp : p.icms_modalidade ∈ (["30", "40", "41", "50", "60"] : List String))
    (hq : q.icms_modalidade = "00") :
    (∃ x, icmsItem p nf = .ok x ∧ countTag "modBC" x.children = 0) ∧
    (∃ y, icmsItem q ng = .ok y ∧ countTag "modBC" y.children = 1) := by
  constructor
  · simp only [List.mem_cons, List.not_mem_nil, or_false] at hp
    refine ⟨icmsOutros p nf, ?_, ?_⟩
    · rcases hp with h | h | h | h | h <;> simp [icmsItem, h]
    · rcases hp with h | h | h | h | h <;>
        cases hcf : clienteFinalSemRetido nf p <;>
          simp [icmsOutros, h, hcf, countTag, removeTag, leaf, XmlTree.tag,
            XmlTree.children]
  · refine ⟨icmsOutros q ng, ?_, ?_⟩
    · simp [icmsItem, hq]
    · simp [icmsOutros, hq, countTag, removeTag, leaf, XmlTree.tag,
        XmlTree.children]

/-- Claim C6, witness at the concrete items `p30` (code 30) and `pBase`
(code 00). -/
theorem c6_modBC_presence_witness :
    (p30.icms_modalidade ∈ (["30", "40", "41", "50", "60"] : List String) ∧
     pBase.icms_modalidade = "00") ∧
    ((∃ x, icmsItem p30 (some nfBase) = .ok x ∧ countTag "modBC" x.children = 0) ∧
     (∃ y, icmsItem pBase (some nfBase) = .ok y ∧ countTag "modBC" y.children = 1)) :=
  ⟨⟨by decide, by decide⟩,
   c6_modBC_presence p30 pBase (some nfBase) (some nfBase) (by decide) (by decide)⟩

/-- Claim C7: whenever the serializer was constructed with a contingency
justification, building the identification section reads the nonexistent
attribute `nota_fiscal.self` (serializacao.py:726) and raises
AttributeError, so no document tree is produced in contingency mode
(the state-code lookup at line 661 must succeed for execution to reach
the contingency block). -/
theorem c7_contingencia_attribute_error (cfg : Config)
    (ce : String → Option String) (tz : String) (nf : NotaFiscal) (j c : String)
    (hc : cfg.contingencia = some j) (hu : ce nf.uf = some c) :
    (serializarIde cfg ce tz nf).2 = .error .attributeError := by
  unfold serializarIde
  rw [hu]
  simp [hc]

/-- Claim C7, witness at a concrete document and contingency
configuration. -/
theorem c7_contingencia_attribute_error_witness :
    (cfgCont.contingencia = some "PROBLEMAS COM A INTERNET DA EMPRESA" ∧
     ceMG nfBase.uf = some "31") ∧
    (serializarIde cfgCont ceMG "-03:00" nfBase).2 = .error .attributeError :=
  ⟨⟨rfl, by decide⟩,
   c7_contingencia_attribute_error cfgCont ceMG "-03:00" nfBase
     "PROBLEMAS COM A INTERNET DA EMPRESA" "31" rfl (by decide)⟩

/-- Claim C8: with a contingency justification set and the document's
emission method equal to `'1'`, serialization rewrites the caller's
record to emission method `'9'`, and the mutated record is what the call
leaves behind even though it then raises (the returned state carries
`forma_emissao = "9"` alongside the AttributeError). -/
theorem c8_contingencia_mutates_forma_emissao (cfg : Config)
    (ce : String → Option String) (tz : String) (nf : NotaFiscal) (j c : String)
    (hc : cfg.contingencia = some j) (hf : nf.forma_emissao = "1")
    (hu : ce nf.uf = some c) :
    ((serializarIde cfg ce tz nf).1).forma_emissao = "9" ∧
    (serializarIde cfg ce tz nf).2 = .error .attributeError := by
  unfold serializarIde
  rw [hu]
  simp [hc, hf]

/-- Claim C8, witness at a concrete document with emission method `'1'`. -/
theorem c8_contingencia_mutates_forma_emissao_witness :
    (cfgCont.contingencia = some "PROBLEMAS COM A INTERNET DA EMPRESA" ∧
     nfBase.forma_emissao = "1" ∧ ceMG nfBase.uf = some "31") ∧
    (((serializarIde cfgCont ceMG "-03:00" nfBase).1).forma_emissao = "9" ∧
     (serializarIde cfgCont ceMG "-03:00" nfBase).2 = .error .attributeError) :=
  ⟨⟨rfl, rfl, by decide⟩,
   c8_contingencia_mutates_forma_emissao cfgCont ceMG "-03:00" nfBase
     "PROBLEMAS COM A INTERNET DA EMPRESA" "31" rfl rfl (by decide)⟩

/-- Claim C9, counterexample: with the state-code table mapping XX to 99
and an empty URL-template table, the jurisdiction dispatch fails with the
untyped dict-lookup KeyError — not with a typed
UnsupportedJurisdictionError, which does not exist in the code. -/
theorem c9_jurisdiction_counterexample :
    qrJurisdiction [("XX", "99")] (fun _ => none) "1" "99" "p=x" =
      .error .keyError := by
  decide

/-- Claim C9, amended: whenever the document's state resolves in the
state-code table but is absent from the per-jurisdiction URL-template
table, every branch of the dispatch raises the untyped lookup KeyError
(and a state code absent from the state-code table raises IndexError);
no typed UnsupportedJurisdictionError is ever produced. -/
theorem c9_unknown_jurisdiction_keyerror (estados : List (String × String))
    (nfce : String → Option NfceEntry) (tpamb cuf url uf : String)
    (hu : ufFromCuf estados cuf = .ok uf)
    (hn : nfce (pyUpper uf) = none) :
    qrJurisdiction estados nfce tpamb cuf url = .error .keyError := by
  unfold qrJurisdiction
  rw [hu, exceptBindOk]
  split_ifs <;> simp [dictGet, hn, exceptBindErr]

/-- Claim C9, witness of the amended theorem at the concrete tables. -/
theorem c9_unknown_jurisdiction_keyerror_witness :
    (ufFromCuf [("XX", "99")] "99" = .ok "XX" ∧
     (fun (_ : String) => (none : Option NfceEntry)) (pyUpper "XX") = none) ∧
    qrJurisdiction [("XX", "99")] (fun _ => none) "1" "99" "p=x" =
      .error .keyError :=
  ⟨⟨by decide, rfl⟩,
   c9_unknown_jurisdiction_keyerror [("XX", "99")] (fun _ => none) "1" "99"
     "p=x" "XX" (by decide) rfl⟩

/-- Claim C10, counterexample: the event `evFoo`, whose description `Foo`
is none of the three known event types, is serialized without any error
and the returned event document carries a `detEvento` block containing
only the `descEvento` child — an empty detail block, refuting the claim
that an unknown description raises. -/
theorem c10_evento_counterexample :
    okB (serializar_evento {} ceMG "-03:00" evFoo) = true ∧
    (match serializar_evento {} ceMG "-03:00" evFoo with
     | .ok t => detEventoTags t
     | .error _ => none) = some ["descEvento"] := by
  exact ⟨by decide, by decide⟩

/-- Claim C10, amended: for every event whose description is none of
Cancelamento, Carta de Correcao and Operacao nao Realizada (and whose
state resolves in the state-code table), event serialization succeeds and
returns a document whose `detEvento` block contains only the
`descEvento` child: no error is raised and the detail payload is empty. -/
theorem c10_unknown_event_empty_detail (cfg : Config)
    (ce : String → Option String) (tz : String) (ev : Evento) (c : String)
    (h : ev.descricao ∉
      (["Cancelamento", "Carta de Correcao", "Operacao nao Realizada"] : List String))
    (hc : ce (pyUpper ev.uf) = some c) :
    ∃ t, serializar_evento cfg ce tz ev = .ok t ∧
      detEventoTags t = some ["descEvento"] := by
  simp only [List.mem_cons, List.not_mem_nil, or_false, not_or] at h
  obtain ⟨h1, h2, h3⟩ := h
  refine ⟨XmlTree.el "evento" [("versao", "1.00")] none
      [XmlTree.el "infEvento" [("Id", ev.identificador)] none
        [leaf "cOrgao" c,
         leaf "tpAmb" (toString cfg.ambiente),
         leaf "CNPJ" ev.cnpj,
         leaf "chNFe" ev.chave,
         leaf "dhEvento" (ev.data_emissao ++ tz),
         leaf "tpEvento" ev.tp_evento,
         leaf "nSeqEvento" (toString ev.n_seq_evento),
         leaf "verEvento" "1.00",
         XmlTree.el "detEvento" [("versao", "1.00")] none
           [leaf "descEvento" ev.descricao]]], ?_, ?_⟩
  · unfold serializar_evento
    rw [hc]
    simp [h1, h2, h3]
  · simp [detEventoTags, firstTag, XmlTree.children, XmlTree.tag, leaf]

/-- Claim C10, witness of the amended theorem at the concrete event
`evFoo`. -/
theorem c10_unknown_event_empty_detail_witness :
    (evFoo.descricao ∉
      (["Cancelamento", "Carta de Correcao", "Operacao nao Realizada"] : List String) ∧
     ceMG (pyUpper evFoo.uf) = some "31") ∧
    (∃ t, serializar_evento {} ceMG "-03:00" evFoo = .ok t ∧
      detEventoTags t = some ["descEvento"]) :=
  ⟨⟨by decide, by decide⟩,
   c10_unknown_event_empty_detail {} ceMG "-03:00" evFoo "31" (by decide)
     (by decide)⟩
